import Mathlib

/-!
Shallow embedding of `src/spawn/utils/github.py` (SPAwn repository).

The module is an HTTP automation layer around the GitHub API.  We embed it
as pure Lean functions: the network is an oracle `Net` mapping each issued
request to a response, and every operation returns its result together with
a trace of observable events (HTTP requests issued, log warnings/infos,
local file writes).  JSON values are modelled by the inductive `Json`,
with objects as insertion-ordered association lists, matching Python dicts.
-/

set_option autoImplicit false

namespace Spawn

/-- JSON values; objects are insertion-ordered association lists (Python dict). -/
inductive Json where
  | str : String → Json
  | num : Int → Json
  | bool : Bool → Json
  | null : Json
  | arr : List Json → Json
  | obj : List (String × Json) → Json
  deriving Repr

/-- Lookup of a key in an association list (first binding wins, as in a dict). -/
def objLookup : List (String × Json) → String → Option Json
  | [], _ => none
  | (k, v) :: rest, key => if k = key then some v else objLookup rest key

/-- Python dict assignment `d[k] = v`: overwrite in place if the key exists,
otherwise append the new binding at the end (insertion order). -/
def objInsert (kvs : List (String × Json)) (k : String) (v : Json) : List (String × Json) :=
  if kvs.any (fun p => p.1 == k) then
    kvs.map (fun p => if p.1 = k then (k, v) else p)
  else
    kvs ++ [(k, v)]

/-- Python `dict.update(extra)`: assign every binding of `extra` in order. -/
def objUpdate (base extra : List (String × Json)) : List (String × Json) :=
  extra.foldl (fun acc p => objInsert acc p.1 p.2) base

/-- `j[key]` when `j` is an object holding the key; `none` models the
Python `KeyError` / `TypeError` cases. -/
def objLookupJ : Json → String → Option Json
  | Json.obj kvs, key => objLookup kvs key
  | _, _ => none

/-- Python truthiness of an `Optional[str]`: `None` and `""` are falsy. -/
def pyTruthy : Option String → Bool
  | none => false
  | some s => if s = "" then false else true

/-- Python `a or b` on `Optional[str]` values: `a` if truthy, else `b`. -/
def pyOr (a b : Option String) : Option String :=
  if pyTruthy a then a else b

/-- Python truthiness of an `Optional[dict]`: `None` and the empty dict are falsy. -/
def pyTruthyDict : Option (List (String × Json)) → Bool
  | none => false
  | some [] => false
  | some (_ :: _) => true

/-- Python `str(x)` of a parsed JSON value as used in f-strings; strings
print raw, other values via the serializer (approximation). -/
def spaces (n : Nat) : String := String.mk (List.replicate n ' ')

/-- Hex digit for JSON escapes. -/
def hexDigit (n : Nat) : Char :=
  if n < 10 then Char.ofNat (48 + n) else Char.ofNat (87 + n)

/-- JSON escape of one character, following `json.dumps` (ensure_ascii). -/
def jsonEscapeChar (ch : Char) : String :=
  if ch = '"' then "\\\""
  else if ch = '\\' then "\\\\"
  else if ch = '\n' then "\\n"
  else if ch = '\t' then "\\t"
  else if ch = '\r' then "\\r"
  else if ch.toNat < 32 ∨ ch.toNat > 126 then
    let n := ch.toNat
    String.mk ['\\', 'u', hexDigit (n / 4096 % 16), hexDigit (n / 256 % 16),
               hexDigit (n / 16 % 16), hexDigit (n % 16)]
  else String.mk [ch]

/-- JSON string literal serialization. -/
def jsonDumpStr (s : String) : String :=
  "\"" ++ String.join (s.toList.map jsonEscapeChar) ++ "\""

mutual

/-- `json.dumps(v, indent=2)` at a given current indentation. -/
def jsonDumpAux : Json → Nat → String
  | Json.str s, _ => jsonDumpStr s
  | Json.num i, _ => toString i
  | Json.bool true, _ => "true"
  | Json.bool false, _ => "false"
  | Json.null, _ => "null"
  | Json.arr [], _ => "[]"
  | Json.arr (x :: xs), n =>
      "[\n" ++ jsonDumpItems (x :: xs) (n + 2) ++ "\n" ++ spaces n ++ "]"
  | Json.obj [], _ => "\x7b\x7d"
  | Json.obj (p :: ps), n =>
      "\x7b\n" ++ jsonDumpPairs (p :: ps) (n + 2) ++ "\n" ++ spaces n ++ "\x7d"

/-- Array items, comma/newline separated, each indented. -/
def jsonDumpItems : List Json → Nat → String
  | [], _ => ""
  | [x], n => spaces n ++ jsonDumpAux x n
  | x :: y :: ys, n => spaces n ++ jsonDumpAux x n ++ ",\n" ++ jsonDumpItems (y :: ys) n

/-- Object pairs, comma/newline separated, each indented. -/
def jsonDumpPairs : List (String × Json) → Nat → String
  | [], _ => ""
  | [(k, v)], n => spaces n ++ jsonDumpStr k ++ ": " ++ jsonDumpAux v n
  | (k, v) :: q :: qs, n =>
      spaces n ++ jsonDumpStr k ++ ": " ++ jsonDumpAux v n ++ ",\n" ++ jsonDumpPairs (q :: qs) n

end

/-- `json.dumps(v, indent=2)`. -/
def jsonDumps (v : Json) : String := jsonDumpAux v 0

/-- f-string rendering of a parsed JSON value (`full_name`, error messages):
a string renders raw, anything else via the serializer (approximation of
Python `str`). -/
def pyShowJson : Json → String
  | Json.str s => s
  | j => jsonDumps j

/-- Character of the standard base64 alphabet. -/
def b64Char (n : Nat) : Char :=
  "ABCDEFGHIJKLMNOPQRSTUVWXYZabcdefghijklmnopqrstuvwxyz0123456789+/".toList.getD n 'A'

/-- `base64.b64encode` over a byte list, with padding. -/
def base64Encode : List Nat → String
  | [] => ""
  | [a] => String.mk [b64Char (a / 4), b64Char (a % 4 * 16), '=', '=']
  | [a, b] => String.mk [b64Char (a / 4), b64Char (a % 4 * 16 + b / 16), b64Char (b % 16 * 4), '=']
  | a :: b :: c :: rest =>
      String.mk [b64Char (a / 4), b64Char (a % 4 * 16 + b / 16),
                 b64Char (b % 16 * 4 + c / 64), b64Char (c % 64)]
        ++ base64Encode rest

/-- UTF-8 encoding of a string as a byte list (`str.encode("utf-8")`). -/
def utf8Bytes (s : String) : List Nat := s.toUTF8.toList.map UInt8.toNat

/-- The `content` argument of `push_file`: `Union[str, Dict[str, Any], bytes]`. -/
inductive Content where
  | text : String → Content
  | dict : List (String × Json) → Content
  | bin : List Nat → Content
  deriving Repr

/-- Content normalization in `push_file`: a dict is first serialized with
`json.dumps(content, indent=2)`; strings are UTF-8 encoded; the bytes are
base64 encoded. -/
def encodeContent : Content → String
  | Content.text s => base64Encode (utf8Bytes s)
  | Content.dict d => base64Encode (utf8Bytes (jsonDumps (Json.obj d)))
  | Content.bin bs => base64Encode bs

/-- HTTP method of a `requests` call. -/
inductive Method where
  | get
  | post
  | put
  | patch
  deriving Repr, DecidableEq

/-- One HTTP request as issued by the client: method, URL, query parameters
(`params=`), JSON body (`json=`), headers. -/
structure HttpRequest where
  method : Method
  url : String
  params : List (String × String)
  payload : Json
  headers : List (String × String)
  deriving Repr

/-- An HTTP response: status code, parsed JSON body (`response.json()`),
raw text (`response.text`). -/
structure HttpResponse where
  status : Nat
  body : Json
  text : String
  deriving Repr

/-- The network oracle: what the host answers to each request. -/
def Net : Type := HttpRequest → HttpResponse

/-- Observable events of an operation, in order: HTTP requests issued,
warning/info log lines, local file writes (path and document written). -/
inductive Ev where
  | http : HttpRequest → Ev
  | warn : String → Ev
  | info : String → Ev
  | fileWrite : String → Json → Ev
  deriving Repr

/-- The HTTP requests of a trace, in order. -/
def httpReqs (tr : List Ev) : List HttpRequest :=
  tr.filterMap fun e => match e with | Ev.http r => some r | _ => none

/-- Number of warning log lines in a trace. -/
def warnCount (tr : List Ev) : Nat :=
  (tr.filter fun e => match e with | Ev.warn _ => true | _ => false).length

/-- `response.json().get('message', response.text)` as rendered in f-strings. -/
def respMessage (r : HttpResponse) : String :=
  match objLookupJ r.body "message" with
  | some m => pyShowJson m
  | none => r.text

/-- The client state: credentials resolved at construction, base API URL. -/
structure GitHubClient where
  token : Option String
  username : Option String
  api_url : String
  deriving Repr

/-- Ambient configuration: the `config["github"]` entries and the
`GITHUB_TOKEN` / `GITHUB_USERNAME` environment variables. -/
structure Env where
  config_token : Option String
  config_username : Option String
  env_token : Option String
  env_username : Option String
  deriving Repr

/-- `GitHubClient.__init__`: resolve each credential as
`explicit or config-entry or environment-variable` (Python `or`, so the
first truthy value wins) and log a warning for each missing credential.
Construction never fails. -/
def GitHubClient.init (token username : Option String) (env : Env) (api_url : String) :
    GitHubClient × List Ev :=
  let t := pyOr (pyOr token env.config_token) env.env_token
  let u := pyOr (pyOr username env.config_username) env.env_username
  (⟨t, u, api_url⟩,
    (if pyTruthy t then [] else [Ev.warn "No GitHub token provided. Some operations may fail."])
      ++ (if pyTruthy u then [] else [Ev.warn "No GitHub username provided. Some operations may fail."]))

/-- `GitHubClient._get_headers`. -/
def GitHubClient.get_headers (c : GitHubClient) : List (String × String) :=
  let headers := [("Accept", "application/vnd.github.v3+json")]
  if pyTruthy c.token then headers ++ [("Authorization", "token " ++ c.token.getD "")]
  else headers

/-- The fork request of `create_fork` (`POST .../forks`, body holds
`organization` only when that argument is truthy). -/
def forkReq (c : GitHubClient) (repo_owner repo_name : String) (organization : Option String) :
    HttpRequest :=
  ⟨Method.post, c.api_url ++ "/repos/" ++ repo_owner ++ "/" ++ repo_name ++ "/forks", [],
   Json.obj (if pyTruthy organization then [("organization", Json.str (organization.getD ""))] else []),
   c.get_headers⟩

/-- The rename request of `create_fork` (`PATCH .../repos/{organization or
username}/{repo_name}`); an unresolved owner renders as Python `None` does
in an f-string. -/
def renameReq (c : GitHubClient) (repo_name : String)
    (new_name organization description : Option String) : HttpRequest :=
  ⟨Method.patch,
   c.api_url ++ "/repos/" ++ (pyOr organization c.username).getD "None" ++ "/" ++ repo_name, [],
   Json.obj ([("name", Json.str (new_name.getD ""))]
     ++ (if pyTruthy description then [("description", Json.str (description.getD ""))] else [])),
   c.get_headers⟩

/-- `GitHubClient.create_fork`: requires a token; posts the fork request and
demands status 202; logs the created fork (indexing `full_name`, a missing
key is the Python `KeyError`); when `new_name` is truthy and differs from
`repo_name`, issues one rename request whose failure is only a warning. -/
def GitHubClient.create_fork (c : GitHubClient) (net : Net) (repo_owner repo_name : String)
    (new_name organization description : Option String) : Except String Json × List Ev :=
  if pyTruthy c.token = false then
    (Except.error "GitHub token is required to create a fork", [])
  else
    let req := forkReq c repo_owner repo_name organization
    let response := net req
    if response.status ≠ 202 then
      (Except.error ("Failed to create fork: " ++ respMessage response), [Ev.http req])
    else
      match objLookupJ response.body "full_name" with
      | none => (Except.error "KeyError: full_name", [Ev.http req])
      | some fn =>
        let fork_info := response.body
        let tr := [Ev.http req, Ev.info ("Created fork: " ++ pyShowJson fn)]
        if pyTruthy new_name ∧ new_name ≠ some repo_name then
          let rreq := renameReq c repo_name new_name organization description
          let r2 := net rreq
          if r2.status ≠ 200 then
            (Except.ok fork_info,
             tr ++ [Ev.http rreq, Ev.warn ("Failed to rename repository: " ++ respMessage r2)])
          else
            match objLookupJ r2.body "full_name" with
            | none => (Except.error "KeyError: full_name", tr ++ [Ev.http rreq])
            | some fn2 =>
              (Except.ok r2.body,
               tr ++ [Ev.http rreq, Ev.info ("Renamed repository to: " ++ pyShowJson fn2)])
        else
          (Except.ok fork_info, tr)

/-- The actions-permissions request of `configure_pages_and_actions`
(`PUT .../actions/permissions`). -/
def actionsReq (c : GitHubClient) (repo_owner repo_name : String) : HttpRequest :=
  ⟨Method.put, c.api_url ++ "/repos/" ++ repo_owner ++ "/" ++ repo_name ++ "/actions/permissions",
   [],
   Json.obj [("enabled", Json.bool true), ("allowed_actions", Json.str "all"),
             ("default_workflow_permissions", Json.str "write")],
   c.get_headers⟩

/-- The pages request of `configure_pages_and_actions` (`PUT .../pages`). -/
def pagesReq (c : GitHubClient) (repo_owner repo_name branch pages_path : String) : HttpRequest :=
  ⟨Method.put, c.api_url ++ "/repos/" ++ repo_owner ++ "/" ++ repo_name ++ "/pages", [],
   Json.obj [("source", Json.obj [("branch", Json.str branch), ("path", Json.str pages_path)])],
   c.get_headers⟩

/-- `GitHubClient.configure_pages_and_actions`: requires a token; issues the
actions-permissions call (statuses other than 200/204 only warn) and then
the pages call (statuses other than 201/204 only warn, success logs info);
returns nothing and never fails past the token check. -/
def GitHubClient.configure_pages_and_actions (c : GitHubClient) (net : Net)
    (repo_owner repo_name branch pages_path : String) : Except String Unit × List Ev :=
  if pyTruthy c.token = false then
    (Except.error "GitHub token is required to configure repo", [])
  else
    let r1 := net (actionsReq c repo_owner repo_name)
    let ev1 :=
      if r1.status = 200 ∨ r1.status = 204 then []
      else [Ev.warn ("Failed to update Actions permissions: " ++ r1.text)]
    let r2 := net (pagesReq c repo_owner repo_name branch pages_path)
    let ev2 :=
      if r2.status = 201 ∨ r2.status = 204 then
        [Ev.info ("Enabled GitHub Pages for " ++ repo_owner ++ "/" ++ repo_name
          ++ " from branch " ++ branch)]
      else [Ev.warn ("Failed to enable GitHub Pages: " ++ r2.text)]
    (Except.ok (),
     [Ev.http (actionsReq c repo_owner repo_name)] ++ ev1
       ++ [Ev.http (pagesReq c repo_owner repo_name branch pages_path)] ++ ev2)

/-- The contents URL of `push_file` (`.../contents/{file_path}`), shared by
its preliminary GET and its PUT. -/
def pushUrl (c : GitHubClient) (repo_owner repo_name file_path : String) : String :=
  c.api_url ++ "/repos/" ++ repo_owner ++ "/" ++ repo_name ++ "/contents/" ++ file_path

/-- The preliminary read of `push_file` (`GET`, `params={"ref": branch}`). -/
def pushGetReq (c : GitHubClient) (repo_owner repo_name file_path branch : String) : HttpRequest :=
  ⟨Method.get, pushUrl c repo_owner repo_name file_path, [("ref", branch)], Json.null,
   c.get_headers⟩

/-- The write payload of `push_file`, given the preliminary read's response:
message, normalized content and branch; when the read's status is 200 the
entry `sha` is assigned `response.json()["sha"]` (`KeyError` if absent). -/
def pushDataE (content : Content) (message branch : String) (getResp : HttpResponse) :
    Except String (List (String × Json)) :=
  let data := [("message", Json.str message), ("content", Json.str (encodeContent content)),
               ("branch", Json.str branch)]
  if getResp.status = 200 then
    match objLookupJ getResp.body "sha" with
    | some v => Except.ok (objInsert data "sha" v)
    | none => Except.error "KeyError: sha"
  else
    Except.ok data

/-- The write request of `push_file` (`PUT`, JSON body `data`). -/
def pushPutReq (c : GitHubClient) (repo_owner repo_name file_path : String)
    (data : List (String × Json)) : HttpRequest :=
  ⟨Method.put, pushUrl c repo_owner repo_name file_path, [], Json.obj data, c.get_headers⟩

/-- `GitHubClient.push_file`: requires a token; reads the current file to
discover its `sha`; builds the write payload and issues the PUT; only a
write status other than 200/201 is a failure. -/
def GitHubClient.push_file (c : GitHubClient) (net : Net)
    (repo_owner repo_name file_path : String) (content : Content) (message branch : String) :
    Except String Json × List Ev :=
  if pyTruthy c.token = false then
    (Except.error "GitHub token is required to push files", [])
  else
    let getReq := pushGetReq c repo_owner repo_name file_path branch
    let response := net getReq
    match pushDataE content message branch response with
    | Except.error e => (Except.error e, [Ev.http getReq])
    | Except.ok data =>
      let putReq := pushPutReq c repo_owner repo_name file_path data
      let r2 := net putReq
      if r2.status = 200 ∨ r2.status = 201 then
        (Except.ok r2.body,
         [Ev.http getReq, Ev.http putReq,
          Ev.info ("Pushed file " ++ file_path ++ " to " ++ repo_owner ++ "/" ++ repo_name)])
      else
        (Except.error ("Failed to push file: " ++ respMessage r2), [Ev.http getReq, Ev.http putReq])

/-- The document built by `configure_static_json` before writing: the index
block from `index_name`, a branding dict receiving `title` / `subtitle`
only for truthy arguments, then `config_data.update(additional_config)`
when that argument is truthy. -/
def staticJsonDoc (index_name : String) (portal_title portal_subtitle : Option String)
    (additional_config : Option (List (String × Json))) : List (String × Json) :=
  let branding : List (String × Json) := []
  let branding :=
    if pyTruthy portal_title then objInsert branding "title" (Json.str (portal_title.getD ""))
    else branding
  let branding :=
    if pyTruthy portal_subtitle then
      objInsert branding "subtitle" (Json.str (portal_subtitle.getD ""))
    else branding
  let config_data : List (String × Json) :=
    [("index", Json.obj [("uuid", Json.str index_name), ("name", Json.str index_name)]),
     ("branding", Json.obj branding)]
  match additional_config with
  | some extra => if pyTruthyDict (some extra) then objUpdate config_data extra else config_data
  | none => config_data

/-- `configure_static_json`: builds the document, writes it to
`repo_dir/static.json` unconditionally, and only then — when
`push_to_github` is set — demands `repo_owner` and `repo_name`, constructs
a client and pushes the file content read back from disk (`fs` is the
read-back oracle). -/
def configure_static_json (fs : String → String) (net : Net) (env : Env)
    (repo_dir index_name : String) (portal_title portal_subtitle : Option String)
    (additional_config : Option (List (String × Json))) (push_to_github : Bool)
    (repo_owner repo_name token username : Option String) (commit_message branch : String) :
    Except String String × List Ev :=
  let static_json_path := repo_dir ++ "/static.json"
  let config_data := staticJsonDoc index_name portal_title portal_subtitle additional_config
  let tr := [Ev.fileWrite static_json_path (Json.obj config_data),
             Ev.info ("Configured static.json at " ++ static_json_path)]
  if push_to_github then
    if pyTruthy repo_owner = false ∨ pyTruthy repo_name = false then
      (Except.error "repo_owner and repo_name are required when push_to_github is True", tr)
    else
      let cl := GitHubClient.init token username env "https://api.github.com"
      let content := fs static_json_path
      let pr := cl.1.push_file net (repo_owner.getD "") (repo_name.getD "") "static.json"
        (Content.text content) commit_message branch
      match pr.1 with
      | Except.error e => (Except.error e, tr ++ cl.2 ++ pr.2)
      | Except.ok _ =>
        (Except.ok static_json_path,
         tr ++ cl.2 ++ pr.2
           ++ [Ev.info ("Pushed static.json to " ++ repo_owner.getD "" ++ "/" ++ repo_name.getD "")])
  else
    (Except.ok static_json_path, tr)

/-! ### Lemmas about the dict operations -/

theorem objLookup_eq_none (l : List (String × Json)) (k : String)
    (h : ∀ p ∈ l, p.1 ≠ k) : objLookup l k = none := by
  induction l with
  | nil => rfl
  | cons p rest ih =>
    obtain ⟨k1, v1⟩ := p
    simp only [objLookup]
    rw [if_neg (h (k1, v1) (List.mem_cons_self _ _))]
    exact ih fun q hq => h q (List.mem_cons_of_mem _ hq)

theorem objLookup_append_of_none (l1 l2 : List (String × Json)) (k : String)
    (h : objLookup l1 k = none) : objLookup (l1 ++ l2) k = objLookup l2 k := by
  induction l1 with
  | nil => rfl
  | cons p rest ih =>
    obtain ⟨k1, v1⟩ := p
    simp only [objLookup] at h ⊢
    by_cases hk : k1 = k
    · rw [if_pos hk] at h; exact absurd h (by simp)
    · rw [if_neg hk] at h ⊢
      exact ih h

theorem objLookup_append_of_some (l1 l2 : List (String × Json)) (k : String) (v : Json)
    (h : objLookup l1 k = some v) : objLookup (l1 ++ l2) k = some v := by
  induction l1 with
  | nil => exact absurd h (by simp [objLookup])
  | cons p rest ih =>
    obtain ⟨k1, v1⟩ := p
    simp only [objLookup] at h ⊢
    by_cases hk : k1 = k
    · rw [if_pos hk] at h ⊢; exact h
    · rw [if_neg hk] at h ⊢
      exact ih h

theorem objLookup_map_set (kvs : List (String × Json)) (k : String) (v : Json)
    (h : kvs.any (fun p => p.1 == k) = true) :
    objLookup (kvs.map (fun p => if p.1 = k then (k, v) else p)) k = some v := by
  induction kvs with
  | nil => simp at h
  | cons p rest ih =>
    obtain ⟨k1, v1⟩ := p
    by_cases hk : k1 = k
    · subst hk
      simp only [List.map_cons]
      rw [if_pos trivial]
      simp [objLookup]
    · have h2 : rest.any (fun p => p.1 == k) = true := by
        simp only [List.any_cons, Bool.or_eq_true, beq_iff_eq] at h
        rcases h with h | h
        · exact absurd h hk
        · exact h
      simp only [List.map_cons]
      have he : (if (k1, v1).1 = k then (k, v) else (k1, v1)) = (k1, v1) := by simp [hk]
      rw [he]
      simp only [objLookup]
      rw [if_neg hk]
      exact ih h2

theorem objLookup_map_set_ne (kvs : List (String × Json)) (k : String) (v : Json) (k' : String)
    (h : k' ≠ k) :
    objLookup (kvs.map (fun p => if p.1 = k then (k, v) else p)) k' = objLookup kvs k' := by
  induction kvs with
  | nil => rfl
  | cons p rest ih =>
    obtain ⟨k1, v1⟩ := p
    by_cases hk : k1 = k
    · subst hk
      simp only [List.map_cons]
      rw [if_pos trivial]
      simp only [objLookup]
      rw [if_neg (fun e => h e.symm), if_neg (fun e => h e.symm)]
      exact ih
    · simp only [List.map_cons]
      have he : (if (k1, v1).1 = k then (k, v) else (k1, v1)) = (k1, v1) := by simp [hk]
      rw [he]
      simp only [objLookup]
      by_cases hk' : k1 = k'
      · rw [if_pos hk', if_pos hk']
      · rw [if_neg hk', if_neg hk']
        exact ih

theorem objLookup_objInsert_self (kvs : List (String × Json)) (k : String) (v : Json) :
    objLookup (objInsert kvs k v) k = some v := by
  unfold objInsert
  by_cases h : kvs.any (fun p => p.1 == k) = true
  · rw [if_pos h]
    exact objLookup_map_set kvs k v h
  · rw [if_neg h]
    have hnone : objLookup kvs k = none := by
      apply objLookup_eq_none
      intro p hp e
      exact h (List.any_eq_true.2 ⟨p, hp, by simp [e]⟩)
    rw [objLookup_append_of_none _ _ _ hnone]
    simp [objLookup]

theorem objLookup_objInsert_ne (kvs : List (String × Json)) (k : String) (v : Json) (k' : String)
    (h : k' ≠ k) : objLookup (objInsert kvs k v) k' = objLookup kvs k' := by
  unfold objInsert
  by_cases hc : kvs.any (fun p => p.1 == k) = true
  · rw [if_pos hc]
    exact objLookup_map_set_ne kvs k v k' h
  · rw [if_neg hc]
    cases hl : objLookup kvs k' with
    | none =>
      rw [objLookup_append_of_none _ _ _ hl]
      simp only [objLookup]
      rw [if_neg (fun e => h e.symm)]
    | some v' =>
      exact objLookup_append_of_some _ _ _ _ hl

theorem objLookup_objUpdate_of_none (base extra : List (String × Json)) (k : String)
    (h : objLookup extra k = none) : objLookup (objUpdate base extra) k = objLookup base k := by
  induction extra generalizing base with
  | nil => rfl
  | cons p rest ih =>
    obtain ⟨k1, v1⟩ := p
    simp only [objLookup] at h
    by_cases hk : k1 = k
    · rw [if_pos hk] at h; exact absurd h (by simp)
    · rw [if_neg hk] at h
      show objLookup (objUpdate (objInsert base k1 v1) rest) k = objLookup base k
      rw [ih (objInsert base k1 v1) h]
      exact objLookup_objInsert_ne base k1 v1 k (fun e => hk e.symm)

theorem objLookup_objUpdate_of_some (base extra : List (String × Json)) (k : String) (v : Json)
    (hnd : (extra.map Prod.fst).Nodup) (h : objLookup extra k = some v) :
    objLookup (objUpdate base extra) k = some v := by
  induction extra generalizing base with
  | nil => exact absurd h (by simp [objLookup])
  | cons p rest ih =>
    obtain ⟨k1, v1⟩ := p
    simp only [List.map_cons, List.nodup_cons] at hnd
    simp only [objLookup] at h
    by_cases hk : k1 = k
    · rw [if_pos hk] at h
      subst hk
      have hrest : objLookup rest k1 = none := by
        apply objLookup_eq_none
        intro q hq e
        exact hnd.1 (e ▸ List.mem_map_of_mem Prod.fst hq)
      show objLookup (objUpdate (objInsert base k1 v1) rest) k1 = some v
      rw [objLookup_objUpdate_of_none _ _ _ hrest, objLookup_objInsert_self]
      exact h
    · rw [if_neg hk] at h
      show objLookup (objUpdate (objInsert base k1 v1) rest) k = some v
      exact ih (objInsert base k1 v1) hnd.2 h

theorem pyOr_cases (a b c : Option String) :
    pyOr (pyOr a b) c = if pyTruthy a then a else if pyTruthy b then b else c := by
  unfold pyOr
  by_cases ha : pyTruthy a = true <;> by_cases hb : pyTruthy b = true <;> simp [ha, hb]

/-! ### Concrete hosts and clients used by witnesses and counterexamples -/

/-- A client holding a token. -/
def clTok : GitHubClient := ⟨some "tok", some "user", "https://api.github.com"⟩

/-- A client whose resolved token is absent. -/
def clNoTok : GitHubClient := ⟨none, some "user", "https://api.github.com"⟩

/-- A host answering 204 to everything. -/
def netAll204 : Net := fun _ => ⟨204, Json.obj [], ""⟩

/-- A host whose GET answers 404 (file absent); writes succeed with 201. -/
def netGet404 : Net := fun req =>
  if req.method = Method.get then ⟨404, Json.obj [("message", Json.str "Not Found")], "nf"⟩
  else ⟨201, Json.obj [("commit", Json.str "c1")], "ok"⟩

/-- A host whose GET answers 200 with a sha; writes succeed with 200. -/
def netGet200 : Net := fun req =>
  if req.method = Method.get then ⟨200, Json.obj [("sha", Json.str "abc")], ""⟩
  else ⟨200, Json.obj [("commit", Json.str "c2")], "ok"⟩

/-- A host whose GET answers 500; writes succeed with 201. -/
def netGet500 : Net := fun req =>
  if req.method = Method.get then ⟨500, Json.obj [], "boom"⟩
  else ⟨201, Json.obj [("commit", Json.str "c3")], "ok"⟩

/-- A host accepting forks (202) and failing renames (422). -/
def netFork : Net := fun req =>
  if req.method = Method.post then ⟨202, Json.obj [("full_name", Json.str "user/template")], ""⟩
  else ⟨422, Json.obj [("message", Json.str "bad rename")], "err"⟩

/-- A host answering 200 to the pages call and 204 to everything else. -/
def netPages200 : Net := fun req =>
  if req.url = "https://api.github.com/repos/o/r/pages" then ⟨200, Json.obj [], "nope"⟩
  else ⟨204, Json.obj [], ""⟩

/-! ### Claim theorems -/

/-- Claim C2: on a client whose resolved token is absent (falsy),
`create_fork`, `configure_pages_and_actions` and `push_file` each fail
immediately with the corresponding `ValueError` message and an empty event
trace — in particular no HTTP request is issued. -/
theorem C2_missing_token_fails_before_network (c : GitHubClient) (net : Net)
    (repo_owner repo_name : String) (new_name organization description : Option String)
    (branch pages_path file_path : String) (content : Content) (message branch2 : String)
    (h : pyTruthy c.token = false) :
    c.create_fork net repo_owner repo_name new_name organization description
        = (Except.error "GitHub token is required to create a fork", [])
    ∧ c.configure_pages_and_actions net repo_owner repo_name branch pages_path
        = (Except.error "GitHub token is required to configure repo", [])
    ∧ c.push_file net repo_owner repo_name file_path content message branch2
        = (Except.error "GitHub token is required to push files", []) := by
  refine ⟨?_, ?_, ?_⟩ <;>
    simp [GitHubClient.create_fork, GitHubClient.configure_pages_and_actions,
      GitHubClient.push_file, h]

/-- Witness for C2 at a concrete tokenless client: all three operations
fail with an empty trace. -/
theorem C2_witness :
    clNoTok.create_fork netAll204 "globus" "template-search-portal" (some "p") none none
        = (Except.error "GitHub token is required to create a fork", [])
    ∧ clNoTok.configure_pages_and_actions netAll204 "o" "r" "gh-pages" "/"
        = (Except.error "GitHub token is required to configure repo", [])
    ∧ clNoTok.push_file netAll204 "o" "r" "f.txt" (Content.text "hi") "m" "main"
        = (Except.error "GitHub token is required to push files", []) :=
  C2_missing_token_fails_before_network clNoTok netAll204 "globus" "template-search-portal"
    (some "p") none none "gh-pages" "/" "f.txt" (Content.text "hi") "m" "main" rfl

/-- Claim C8: the client resolves the token and the username by trying the
explicit argument, then the configuration entry, then the environment
variable, first truthy value winning; a missing credential only logs a
warning — construction always yields a client and the trace holds nothing
but warnings. -/
theorem C8_credential_resolution (token username : Option String) (env : Env) (api_url : String) :
    (GitHubClient.init token username env api_url).1.token
        = (if pyTruthy token then token
           else if pyTruthy env.config_token then env.config_token else env.env_token)
    ∧ (GitHubClient.init token username env api_url).1.username
        = (if pyTruthy username then username
           else if pyTruthy env.config_username then env.config_username else env.env_username)
    ∧ (GitHubClient.init token username env api_url).1.api_url = api_url
    ∧ (pyTruthy (GitHubClient.init token username env api_url).1.token = false →
        Ev.warn "No GitHub token provided. Some operations may fail."
          ∈ (GitHubClient.init token username env api_url).2)
    ∧ (pyTruthy (GitHubClient.init token username env api_url).1.username = false →
        Ev.warn "No GitHub username provided. Some operations may fail."
          ∈ (GitHubClient.init token username env api_url).2)
    ∧ ∀ e ∈ (GitHubClient.init token username env api_url).2, ∃ s, e = Ev.warn s := by
  refine ⟨pyOr_cases _ _ _, pyOr_cases _ _ _, rfl, ?_, ?_, ?_⟩
  · intro h
    have h' : pyTruthy (pyOr (pyOr token env.config_token) env.env_token) = false := h
    simp [GitHubClient.init, h']
  · intro h
    have h' : pyTruthy (pyOr (pyOr username env.config_username) env.env_username) = false := h
    simp [GitHubClient.init, h']
  · intro e he
    have he' : e ∈ ((if pyTruthy (pyOr (pyOr token env.config_token) env.env_token) then []
          else [Ev.warn "No GitHub token provided. Some operations may fail."])
        ++ (if pyTruthy (pyOr (pyOr username env.config_username) env.env_username) then []
          else [Ev.warn "No GitHub username provided. Some operations may fail."])) := he
    rcases List.mem_append.1 he' with h1 | h1
    · by_cases ht : pyTruthy (pyOr (pyOr token env.config_token) env.env_token) = true
      · rw [if_pos ht] at h1
        exact absurd h1 (List.not_mem_nil e)
      · rw [if_neg ht] at h1
        exact ⟨_, List.mem_singleton.1 h1⟩
    · by_cases ht : pyTruthy (pyOr (pyOr username env.config_username) env.env_username) = true
      · rw [if_pos ht] at h1
        exact absurd h1 (List.not_mem_nil e)
      · rw [if_neg ht] at h1
        exact ⟨_, List.mem_singleton.1 h1⟩

/-- Witness for C8: all credential sources empty — construction still
yields a client (token `none`) and both warnings are logged. -/
theorem C8_witness :
    (GitHubClient.init none none ⟨none, none, none, none⟩ "https://api.github.com").1.token = none
    ∧ Ev.warn "No GitHub token provided. Some operations may fail."
        ∈ (GitHubClient.init none none ⟨none, none, none, none⟩ "https://api.github.com").2
    ∧ Ev.warn "No GitHub username provided. Some operations may fail."
        ∈ (GitHubClient.init none none ⟨none, none, none, none⟩ "https://api.github.com").2 :=
  ⟨((C8_credential_resolution none none ⟨none, none, none, none⟩
      "https://api.github.com").1).trans rfl,
   (C8_credential_resolution none none ⟨none, none, none, none⟩
      "https://api.github.com").2.2.2.1 rfl,
   (C8_credential_resolution none none ⟨none, none, none, none⟩
      "https://api.github.com").2.2.2.2.1 rfl⟩

/-- Claim C10: an empty-string `portal_title` or `portal_subtitle` is falsy
and therefore treated exactly like an absent one; the corresponding
branding key is omitted from the written document. -/
theorem C10_empty_string_branding_omitted (index_name : String) (t s : Option String)
    (ac : Option (List (String × Json))) :
    staticJsonDoc index_name (some "") s ac = staticJsonDoc index_name none s ac
    ∧ staticJsonDoc index_name t (some "") ac = staticJsonDoc index_name t none ac
    ∧ objLookup (staticJsonDoc index_name (some "") (some "") none) "branding"
        = some (Json.obj []) :=
  ⟨rfl, rfl, rfl⟩

/-- Claim C5: `configure_static_json` with publish requested but a falsy
`repo_owner` or `repo_name` fails with a `ValueError` — after the document
has been written to disk, and with no HTTP request issued. -/
theorem C5_publish_requires_owner_and_repo (fs : String → String) (net : Net) (env : Env)
    (repo_dir index_name : String) (portal_title portal_subtitle : Option String)
    (additional_config : Option (List (String × Json)))
    (repo_owner repo_name token username : Option String) (commit_message branch : String)
    (h : pyTruthy repo_owner = false ∨ pyTruthy repo_name = false) :
    configure_static_json fs net env repo_dir index_name portal_title portal_subtitle
        additional_config true repo_owner repo_name token username commit_message branch
      = (Except.error "repo_owner and repo_name are required when push_to_github is True",
         [Ev.fileWrite (repo_dir ++ "/static.json")
            (Json.obj (staticJsonDoc index_name portal_title portal_subtitle additional_config)),
          Ev.info ("Configured static.json at " ++ (repo_dir ++ "/static.json"))])
    ∧ httpReqs (configure_static_json fs net env repo_dir index_name portal_title portal_subtitle
        additional_config true repo_owner repo_name token username commit_message branch).2
      = [] := by
  rcases h with h | h <;>
    exact ⟨by simp [configure_static_json, h], by simp [configure_static_json, h, httpReqs]⟩

/-- Witness for C5: owner missing while publish is requested — the file is
written, then the error is raised, no request goes out. -/
theorem C5_witness :
    configure_static_json (fun _ => "") netAll204 ⟨none, none, none, none⟩ "D" "idx" none none
        none true none (some "r") none none "Configure portal" "main"
      = (Except.error "repo_owner and repo_name are required when push_to_github is True",
         [Ev.fileWrite "D/static.json"
            (Json.obj [("index", Json.obj [("uuid", Json.str "idx"), ("name", Json.str "idx")]),
                       ("branding", Json.obj [])]),
          Ev.info "Configured static.json at D/static.json"])
    ∧ httpReqs (configure_static_json (fun _ => "") netAll204 ⟨none, none, none, none⟩ "D" "idx"
        none none none true none (some "r") none none "Configure portal" "main").2 = [] :=
  C5_publish_requires_owner_and_repo (fun _ => "") netAll204 ⟨none, none, none, none⟩ "D" "idx"
    none none none none (some "r") none none "Configure portal" "main" (Or.inl rfl)

/-- Claim C6: without `additional_config` the document holds the index
block with `uuid` and `name` both equal to `index_name`; branding is empty
without title and subtitle, and a provided (truthy) one adds exactly its
key; the end-to-end example writes the expected document to
`D/static.json`. -/
theorem C6_static_doc_index_and_branding (index_name : String) :
    staticJsonDoc index_name none none none
        = [("index", Json.obj [("uuid", Json.str index_name), ("name", Json.str index_name)]),
           ("branding", Json.obj [])]
    ∧ (∀ t : String, t ≠ "" →
        staticJsonDoc index_name (some t) none none
          = [("index", Json.obj [("uuid", Json.str index_name), ("name", Json.str index_name)]),
             ("branding", Json.obj [("title", Json.str t)])])
    ∧ (∀ s : String, s ≠ "" →
        staticJsonDoc index_name none (some s) none
          = [("index", Json.obj [("uuid", Json.str index_name), ("name", Json.str index_name)]),
             ("branding", Json.obj [("subtitle", Json.str s)])])
    ∧ configure_static_json (fun _ => "") (fun _ => ⟨0, Json.null, ""⟩) ⟨none, none, none, none⟩
        "D" "abc-123" (some "T") none none false none none none none "Configure portal" "main"
      = (Except.ok "D/static.json",
         [Ev.fileWrite "D/static.json"
            (Json.obj [("index",
                Json.obj [("uuid", Json.str "abc-123"), ("name", Json.str "abc-123")]),
              ("branding", Json.obj [("title", Json.str "T")])]),
          Ev.info "Configured static.json at D/static.json"]) := by
  refine ⟨rfl, ?_, ?_, rfl⟩
  · intro t ht
    simp [staticJsonDoc, pyTruthy, objInsert, ht]
  · intro s hs
    simp [staticJsonDoc, pyTruthy, objInsert, hs]

/-- Witness for C6 at concrete title and subtitle values. -/
theorem C6_witness :
    staticJsonDoc "i" (some "T") none none
        = [("index", Json.obj [("uuid", Json.str "i"), ("name", Json.str "i")]),
           ("branding", Json.obj [("title", Json.str "T")])]
    ∧ staticJsonDoc "i" none (some "S") none
        = [("index", Json.obj [("uuid", Json.str "i"), ("name", Json.str "i")]),
           ("branding", Json.obj [("subtitle", Json.str "S")])] :=
  ⟨(C6_static_doc_index_and_branding "i").2.1 "T" (by decide),
   (C6_static_doc_index_and_branding "i").2.2.1 "S" (by decide)⟩

/-- Claim C7: `additional_config` is merged into the document at the top
level, its keys overwriting same-named top-level keys entirely (shallow
merge, last write wins); keys it does not mention are untouched; the
claim's example replaces the whole generated index block. -/
theorem C7_extra_config_shallow_merge (index_name : String)
    (portal_title portal_subtitle : Option String) (extra : List (String × Json))
    (hnd : (extra.map Prod.fst).Nodup) (hne : extra ≠ []) :
    (∀ k v, objLookup extra k = some v →
       objLookup (staticJsonDoc index_name portal_title portal_subtitle (some extra)) k = some v)
    ∧ (∀ k, objLookup extra k = none →
       objLookup (staticJsonDoc index_name portal_title portal_subtitle (some extra)) k
         = objLookup (staticJsonDoc index_name portal_title portal_subtitle none) k)
    ∧ objLookup (staticJsonDoc index_name portal_title portal_subtitle
         (some [("index", Json.obj [("uuid", Json.str "X")])])) "index"
        = some (Json.obj [("uuid", Json.str "X")]) := by
  obtain ⟨p, rest, rfl⟩ : ∃ p rest, extra = p :: rest := by
    cases extra with
    | nil => exact absurd rfl hne
    | cons p rest => exact ⟨p, rest, rfl⟩
  have hdoc : staticJsonDoc index_name portal_title portal_subtitle (some (p :: rest))
      = objUpdate (staticJsonDoc index_name portal_title portal_subtitle none) (p :: rest) := rfl
  refine ⟨?_, ?_, ?_⟩
  · intro k v h
    rw [hdoc]
    exact objLookup_objUpdate_of_some _ _ _ _ hnd h
  · intro k h
    rw [hdoc]
    exact objLookup_objUpdate_of_none _ _ _ h
  · have hdoc2 : staticJsonDoc index_name portal_title portal_subtitle
        (some [("index", Json.obj [("uuid", Json.str "X")])])
      = objUpdate (staticJsonDoc index_name portal_title portal_subtitle none)
          [("index", Json.obj [("uuid", Json.str "X")])] := rfl
    rw [hdoc2]
    exact objLookup_objUpdate_of_some _ _ _ _ (by simp) rfl

/-- Witness for C7 with the claim's example: the index block is replaced
entirely, the branding block is untouched. -/
theorem C7_witness :
    objLookup (staticJsonDoc "idx" none none
        (some [("index", Json.obj [("uuid", Json.str "X")])])) "index"
      = some (Json.obj [("uuid", Json.str "X")])
    ∧ objLookup (staticJsonDoc "idx" none none
        (some [("index", Json.obj [("uuid", Json.str "X")])])) "branding"
      = objLookup (staticJsonDoc "idx" none none none) "branding" :=
  ⟨(C7_extra_config_shallow_merge "idx" none none [("index", Json.obj [("uuid", Json.str "X")])]
      (by simp) (by simp)).1 "index" (Json.obj [("uuid", Json.str "X")]) rfl,
   (C7_extra_config_shallow_merge "idx" none none [("index", Json.obj [("uuid", Json.str "X")])]
      (by simp) (by simp)).2.1 "branding" rfl⟩

/-- Claim C1: with a token present, when the preliminary read reports the
file absent (404) the write payload carries no `sha` entry; when it
reports the file present (200, body holding `sha`) the write payload's
`sha` entry is exactly the value returned by that read. -/
theorem C1_push_file_sha_marker (c : GitHubClient) (net : Net)
    (repo_owner repo_name file_path : String) (content : Content) (message branch : String)
    (htok : pyTruthy c.token = true) :
    ((net (pushGetReq c repo_owner repo_name file_path branch)).status = 404 →
      ∃ q, httpReqs (c.push_file net repo_owner repo_name file_path content message branch).2
            = [pushGetReq c repo_owner repo_name file_path branch, q]
        ∧ objLookupJ q.payload "sha" = none)
    ∧ (∀ v, (net (pushGetReq c repo_owner repo_name file_path branch)).status = 200 →
        objLookupJ (net (pushGetReq c repo_owner repo_name file_path branch)).body "sha"
          = some v →
      ∃ q, httpReqs (c.push_file net repo_owner repo_name file_path content message branch).2
            = [pushGetReq c repo_owner repo_name file_path branch, q]
        ∧ objLookupJ q.payload "sha" = some v) := by
  constructor
  · intro h404
    refine ⟨pushPutReq c repo_owner repo_name file_path
      [("message", Json.str message), ("content", Json.str (encodeContent content)),
       ("branch", Json.str branch)], ?_, ?_⟩
    · by_cases hput : (net (pushPutReq c repo_owner repo_name file_path
          [("message", Json.str message), ("content", Json.str (encodeContent content)),
           ("branch", Json.str branch)])).status = 200
          ∨ (net (pushPutReq c repo_owner repo_name file_path
          [("message", Json.str message), ("content", Json.str (encodeContent content)),
           ("branch", Json.str branch)])).status = 201 <;>
        simp [GitHubClient.push_file, pushDataE, htok, h404, hput, httpReqs]
    · simp [pushPutReq, objLookupJ, objLookup]
  · intro v h200 hsha
    refine ⟨pushPutReq c repo_owner repo_name file_path
      (objInsert [("message", Json.str message), ("content", Json.str (encodeContent content)),
        ("branch", Json.str branch)] "sha" v), ?_, ?_⟩
    · by_cases hput : (net (pushPutReq c repo_owner repo_name file_path
          (objInsert [("message", Json.str message),
            ("content", Json.str (encodeContent content)),
            ("branch", Json.str branch)] "sha" v))).status = 200
          ∨ (net (pushPutReq c repo_owner repo_name file_path
          (objInsert [("message", Json.str message),
            ("content", Json.str (encodeContent content)),
            ("branch", Json.str branch)] "sha" v))).status = 201 <;>
        simp [GitHubClient.push_file, pushDataE, htok, h200, hsha, hput, httpReqs]
    · show objLookup (objInsert _ "sha" v) "sha" = some v
      exact objLookup_objInsert_self _ _ _

/-- Witness for C1: a host without the file (404) gets a sha-free payload;
a host with the file (200, sha "abc") gets exactly that sha value. -/
theorem C1_witness :
    ((netGet404 (pushGetReq clTok "o" "r" "f.txt" "main")).status = 404
      ∧ ∃ q, httpReqs (clTok.push_file netGet404 "o" "r" "f.txt"
            (Content.text "hi") "m" "main").2
            = [pushGetReq clTok "o" "r" "f.txt" "main", q]
        ∧ objLookupJ q.payload "sha" = none)
    ∧ ((netGet200 (pushGetReq clTok "o" "r" "f.txt" "main")).status = 200
      ∧ ∃ q, httpReqs (clTok.push_file netGet200 "o" "r" "f.txt"
            (Content.text "hi") "m" "main").2
            = [pushGetReq clTok "o" "r" "f.txt" "main", q]
        ∧ objLookupJ q.payload "sha" = some (Json.str "abc")) :=
  ⟨⟨rfl, (C1_push_file_sha_marker clTok netGet404 "o" "r" "f.txt" (Content.text "hi") "m" "main"
      rfl).1 rfl⟩,
   ⟨rfl, (C1_push_file_sha_marker clTok netGet200 "o" "r" "f.txt" (Content.text "hi") "m" "main"
      rfl).2 (Json.str "abc") rfl rfl⟩⟩

/-- Claim C9 (implicit): every preliminary-read status other than 200 —
including authorization failures and server errors — is treated as "file
absent": the sha is omitted, the failing read never aborts the push, and
the outcome of `push_file` is decided solely by the write's status. -/
theorem C9_read_failure_treated_as_absent (c : GitHubClient) (net : Net)
    (repo_owner repo_name file_path : String) (content : Content) (message branch : String)
    (htok : pyTruthy c.token = true)
    (hget : (net (pushGetReq c repo_owner repo_name file_path branch)).status ≠ 200) :
    ∃ q, httpReqs (c.push_file net repo_owner repo_name file_path content message branch).2
          = [pushGetReq c repo_owner repo_name file_path branch, q]
      ∧ objLookupJ q.payload "sha" = none
      ∧ ((net q).status = 200 ∨ (net q).status = 201 →
          (c.push_file net repo_owner repo_name file_path content message branch).1
            = Except.ok (net q).body)
      ∧ (¬((net q).status = 200 ∨ (net q).status = 201) →
          (c.push_file net repo_owner repo_name file_path content message branch).1
            = Except.error ("Failed to push file: " ++ respMessage (net q))) := by
  refine ⟨pushPutReq c repo_owner repo_name file_path
    [("message", Json.str message), ("content", Json.str (encodeContent content)),
     ("branch", Json.str branch)], ?_, ?_, ?_, ?_⟩
  · by_cases hput : (net (pushPutReq c repo_owner repo_name file_path
        [("message", Json.str message), ("content", Json.str (encodeContent content)),
         ("branch", Json.str branch)])).status = 200
        ∨ (net (pushPutReq c repo_owner repo_name file_path
        [("message", Json.str message), ("content", Json.str (encodeContent content)),
         ("branch", Json.str branch)])).status = 201 <;>
      simp [GitHubClient.push_file, pushDataE, htok, hget, hput, httpReqs]
  · simp [pushPutReq, objLookupJ, objLookup]
  · intro hput
    simp [GitHubClient.push_file, pushDataE, htok, hget, hput]
  · intro hput
    simp [GitHubClient.push_file, pushDataE, htok, hget, hput]

/-- Witness for C9: a host whose read fails with 500 — the push still goes
through with a sha-free payload and succeeds on the write's 201. -/
theorem C9_witness :
    ∃ q, httpReqs (clTok.push_file netGet500 "o" "r" "f.txt" (Content.text "hi") "m" "main").2
          = [pushGetReq clTok "o" "r" "f.txt" "main", q]
      ∧ objLookupJ q.payload "sha" = none
      ∧ ((netGet500 q).status = 200 ∨ (netGet500 q).status = 201 →
          (clTok.push_file netGet500 "o" "r" "f.txt" (Content.text "hi") "m" "main").1
            = Except.ok (netGet500 q).body)
      ∧ (¬((netGet500 q).status = 200 ∨ (netGet500 q).status = 201) →
          (clTok.push_file netGet500 "o" "r" "f.txt" (Content.text "hi") "m" "main").1
            = Except.error ("Failed to push file: " ++ respMessage (netGet500 q))) :=
  C9_read_failure_treated_as_absent clTok netGet500 "o" "r" "f.txt" (Content.text "hi") "m"
    "main" rfl (by decide)

/-- Claim C3: after a successful fork creation (202 with `full_name`), a
falsy or source-equal `new_name` never issues a rename; a differing one
issues exactly one rename request whatever its outcome, and a failed
rename only logs a warning — `create_fork` still returns the fork
descriptor from the fork response. -/
theorem C3_create_fork_rename (c : GitHubClient) (net : Net) (repo_owner repo_name : String)
    (new_name organization description : Option String)
    (htok : pyTruthy c.token = true)
    (h202 : (net (forkReq c repo_owner repo_name organization)).status = 202)
    (fn : Json)
    (hfn : objLookupJ (net (forkReq c repo_owner repo_name organization)).body "full_name"
      = some fn) :
    (¬(pyTruthy new_name = true ∧ new_name ≠ some repo_name) →
      httpReqs (c.create_fork net repo_owner repo_name new_name organization description).2
          = [forkReq c repo_owner repo_name organization]
      ∧ (c.create_fork net repo_owner repo_name new_name organization description).1
          = Except.ok (net (forkReq c repo_owner repo_name organization)).body)
    ∧ (pyTruthy new_name = true ∧ new_name ≠ some repo_name →
      httpReqs (c.create_fork net repo_owner repo_name new_name organization description).2
          = [forkReq c repo_owner repo_name organization,
             renameReq c repo_name new_name organization description]
      ∧ ((net (renameReq c repo_name new_name organization description)).status ≠ 200 →
          (c.create_fork net repo_owner repo_name new_name organization description).1
            = Except.ok (net (forkReq c repo_owner repo_name organization)).body
          ∧ Ev.warn ("Failed to rename repository: "
              ++ respMessage (net (renameReq c repo_name new_name organization description)))
            ∈ (c.create_fork net repo_owner repo_name new_name organization description).2)) := by
  constructor
  · intro hno
    exact ⟨by simp [GitHubClient.create_fork, htok, h202, hfn, hno, httpReqs],
           by simp [GitHubClient.create_fork, htok, h202, hfn, hno]⟩
  · intro hyes
    have hA := hyes.1
    have hB := hyes.2
    constructor
    · by_cases hr : (net (renameReq c repo_name new_name organization description)).status = 200
      · cases hfn2 : objLookupJ
            (net (renameReq c repo_name new_name organization description)).body "full_name" with
        | none =>
          simp [GitHubClient.create_fork, htok, h202, hfn, hA, hB, hr, hfn2, httpReqs]
        | some fn2 =>
          simp [GitHubClient.create_fork, htok, h202, hfn, hA, hB, hr, hfn2, httpReqs]
      · simp [GitHubClient.create_fork, htok, h202, hfn, hA, hB, hr, httpReqs]
    · intro hr
      exact ⟨by simp [GitHubClient.create_fork, htok, h202, hfn, hA, hB, hr],
             by simp [GitHubClient.create_fork, htok, h202, hfn, hA, hB, hr]⟩

/-- Witness for C3: a host accepting the fork; with `new_name` equal to
the source name only the fork request goes out, with a differing name the
rename request goes out, fails with 422, is only warned about, and the
fork descriptor is still returned. -/
theorem C3_witness :
    (httpReqs (clTok.create_fork netFork "globus" "template-search-portal"
        (some "template-search-portal") none none).2
      = [forkReq clTok "globus" "template-search-portal" none]
     ∧ (clTok.create_fork netFork "globus" "template-search-portal"
        (some "template-search-portal") none none).1
      = Except.ok (netFork (forkReq clTok "globus" "template-search-portal" none)).body)
    ∧ (httpReqs (clTok.create_fork netFork "globus" "template-search-portal"
        (some "my-portal") none none).2
      = [forkReq clTok "globus" "template-search-portal" none,
         renameReq clTok "template-search-portal" (some "my-portal") none none]
     ∧ ((clTok.create_fork netFork "globus" "template-search-portal"
          (some "my-portal") none none).1
        = Except.ok (netFork (forkReq clTok "globus" "template-search-portal" none)).body
       ∧ Ev.warn ("Failed to rename repository: " ++ respMessage (netFork
            (renameReq clTok "template-search-portal" (some "my-portal") none none)))
         ∈ (clTok.create_fork netFork "globus" "template-search-portal"
            (some "my-portal") none none).2)) :=
  ⟨(C3_create_fork_rename clTok netFork "globus" "template-search-portal"
      (some "template-search-portal") none none rfl rfl (Json.str "user/template") rfl).1
      (by decide),
   ⟨((C3_create_fork_rename clTok netFork "globus" "template-search-portal"
      (some "my-portal") none none rfl rfl (Json.str "user/template") rfl).2 (by decide)).1,
    ((C3_create_fork_rename clTok netFork "globus" "template-search-portal"
      (some "my-portal") none none rfl rfl (Json.str "user/template") rfl).2 (by decide)).2
      (by decide)⟩⟩

/-- Claim C4 (amended): with a token, both configuration calls are always
issued and the operation never raises; the actions call counts 200/204 as
success while the pages call counts 201/204 (not 200); any other status on
a call logs exactly one warning for that call. -/
theorem C4_configure_best_effort (c : GitHubClient) (net : Net)
    (repo_owner repo_name branch pages_path : String)
    (htok : pyTruthy c.token = true) :
    (c.configure_pages_and_actions net repo_owner repo_name branch pages_path).1 = Except.ok ()
    ∧ httpReqs (c.configure_pages_and_actions net repo_owner repo_name branch pages_path).2
        = [actionsReq c repo_owner repo_name, pagesReq c repo_owner repo_name branch pages_path]
    ∧ warnCount (c.configure_pages_and_actions net repo_owner repo_name branch pages_path).2
        = (if (net (actionsReq c repo_owner repo_name)).status = 200
              ∨ (net (actionsReq c repo_owner repo_name)).status = 204 then 0 else 1)
          + (if (net (pagesReq c repo_owner repo_name branch pages_path)).status = 201
              ∨ (net (pagesReq c repo_owner repo_name branch pages_path)).status = 204
             then 0 else 1)
    ∧ (¬((net (actionsReq c repo_owner repo_name)).status = 200
          ∨ (net (actionsReq c repo_owner repo_name)).status = 204) →
        Ev.warn ("Failed to update Actions permissions: "
            ++ (net (actionsReq c repo_owner repo_name)).text)
          ∈ (c.configure_pages_and_actions net repo_owner repo_name branch pages_path).2)
    ∧ (¬((net (pagesReq c repo_owner repo_name branch pages_path)).status = 201
          ∨ (net (pagesReq c repo_owner repo_name branch pages_path)).status = 204) →
        Ev.warn ("Failed to enable GitHub Pages: "
            ++ (net (pagesReq c repo_owner repo_name branch pages_path)).text)
          ∈ (c.configure_pages_and_actions net repo_owner repo_name branch pages_path).2) := by
  by_cases h1 : (net (actionsReq c repo_owner repo_name)).status = 200
      ∨ (net (actionsReq c repo_owner repo_name)).status = 204 <;>
    by_cases h2 : (net (pagesReq c repo_owner repo_name branch pages_path)).status = 201
      ∨ (net (pagesReq c repo_owner repo_name branch pages_path)).status = 204 <;>
    refine ⟨?_, ?_, ?_, ?_, ?_⟩ <;>
      simp [GitHubClient.configure_pages_and_actions, htok, h1, h2, httpReqs, warnCount]

/-- Witness for C4 (amended) at a host answering 204 to both calls: both
requests issued, overall success, no warning logged. -/
theorem C4_witness :
    (clTok.configure_pages_and_actions netAll204 "o" "r" "gh-pages" "/").1 = Except.ok ()
    ∧ httpReqs (clTok.configure_pages_and_actions netAll204 "o" "r" "gh-pages" "/").2
        = [actionsReq clTok "o" "r", pagesReq clTok "o" "r" "gh-pages" "/"]
    ∧ warnCount (clTok.configure_pages_and_actions netAll204 "o" "r" "gh-pages" "/").2 = 0 :=
  ⟨(C4_configure_best_effort clTok netAll204 "o" "r" "gh-pages" "/" rfl).1,
   (C4_configure_best_effort clTok netAll204 "o" "r" "gh-pages" "/" rfl).2.1,
   ((C4_configure_best_effort clTok netAll204 "o" "r" "gh-pages" "/" rfl).2.2.1).trans rfl⟩

/-- Counterexample to C4 as stated: with a token present and the pages
call answered 200 (actions answered 204), the code still logs a "Failed to
enable GitHub Pages" warning — a 200 status on the pages call does not
count as success, since that call accepts only 201/204. -/
theorem C4_counterexample :
    (netPages200 (pagesReq clTok "o" "r" "gh-pages" "/")).status = 200
    ∧ (clTok.configure_pages_and_actions netPages200 "o" "r" "gh-pages" "/").2
        = [Ev.http (actionsReq clTok "o" "r"),
           Ev.http (pagesReq clTok "o" "r" "gh-pages" "/"),
           Ev.warn "Failed to enable GitHub Pages: nope"]
    ∧ warnCount (clTok.configure_pages_and_actions netPages200 "o" "r" "gh-pages" "/").2 = 1 :=
  ⟨rfl, rfl, rfl⟩

end Spawn
